import Mathlib

/-!
Verification of the supreme-pancake query execution engine
(`src/supremepancake/query.py` and `src/supremepancake/googlesheet.py`).

The Python source is shallowly embedded: JSON values become the inductive
type `PyVal`; Python exceptions become the value type `PyExc`; fallible
code returns `Except PyExc`; the external collaborators (the `json`
module, the `jsonpath_ng` library and the `requests` transport) become an
explicit oracle record `Lib` over which the theorems quantify; the
unbounded `while next_page:` pagination loop is modelled with explicit
fuel, `Option.none` meaning "the loop has not finished within the given
fuel".  Instrumentation: the fetch stage additionally returns the ordered
list of URLs passed to the transport, so that "issues exactly n requests"
is expressible.
-/

namespace SupremePancake

/-- Python/JSON values as manipulated by the source (`json.loads` output,
`jsonpath_ng` match values, `Decimal`/`statistics` results).  Python
`float` and `decimal.Decimal` are merged into the exact constructor
`num`; the claims under study never depend on rounding of numeric
results. -/
inductive PyVal where
  | none
  | bool (b : Bool)
  | int (n : Int)
  | num (q : ℚ)
  | str (s : String)
  | list (xs : List PyVal)
  | dict (fs : List (String × PyVal))

/-- Python exceptions, classified just finely enough for the handlers in
the source: `QueryError` (the classified error of `query.py`),
`requests.HTTPError`, `ValueError` and its subclasses (`json` decode
errors, `statistics.StatisticsError`), and everything else (carrying the
class name and message, as used by the generic handler in
`Query.execute`). -/
inductive PyExc where
  | queryError (code : Int) (message : String)
  | httpError (message : String)
  | valueError (name : String) (message : String)
  | other (name : String) (message : String)
deriving DecidableEq

/-- Error codes from the top of `query.py`. -/
def UNKNOWN_ERROR : Int := -999

def INVALID_QUERY : Int := -100

def INVALID_OR_UNSUPPORTED_HTTP_METHOD : Int := -101

/-- Defined in the source but never raised anywhere in it. -/
def INVALID_URL : Int := -102

/-- Defined in the source but never raised anywhere in it. -/
def JSONPATH_ERROR : Int := -110

def JSONPATH_SYNTAX_ERROR : Int := -111

/-- Defined in the source but never raised anywhere in it. -/
def AGGREGATION_ERROR : Int := -120

def AGGREGATION_INVALID_OPERATOR : Int := -121

def AGGREGATION_WRONG_DATATYPE : Int := -122

/-- Defined in the source but never raised anywhere in it. -/
def AGGREGATION_ARITHMETIC_ERROR : Int := -123

def NO_ERROR : Int := 0

/-- Python truthiness, as used by `if self._http_parameters['response']['next']:`
and `while next_page:`. -/
def pyTruthy : PyVal → Bool
  | .none => false
  | .bool b => b
  | .int n => n != 0
  | .num q => q != 0
  | .str s => s != ""
  | .list xs => !xs.isEmpty
  | .dict fs => !fs.isEmpty

/-- Python `is None` test (`_get_response_json_data`, `_get_response_json_next_page`). -/
def PyVal.isNone : PyVal → Bool
  | .none => true
  | _ => false

/-- First-match association-list lookup, modelling Python dict access
(keys produced by `json.loads` are unique). -/
def dictFind : List (String × PyVal) → String → Option PyVal
  | [], _ => Option.none
  | (k, v) :: rest, key => if k == key then some v else dictFind rest key

/-- Python `d[key] = v` on a dict: replace in place, or append preserving
insertion order. -/
def dictSet : List (String × PyVal) → String → PyVal → List (String × PyVal)
  | [], key, x => [(key, x)]
  | (k, v) :: rest, key, x =>
    if k == key then (k, x) :: rest else (k, v) :: dictSet rest key x

/-- Python subscript `v[key]` with a string key: `KeyError` on a missing
dict key, `TypeError` on non-dict values (string indices must be
integers, lists are not subscriptable by strings, etc.). -/
def pySubscript (v : PyVal) (key : String) : Except PyExc PyVal :=
  match v with
  | .dict fs =>
    match dictFind fs key with
    | some x => Except.ok x
    | Option.none => Except.error (.other ("KeyError") key)
  | _ => Except.error (.other ("TypeError") ("value is not subscriptable by a string key"))

/-- Tests whether the first list is a prefix of the second. -/
def listIsPrefixOf : List Char → List Char → Bool
  | [], _ => true
  | _ :: _, [] => false
  | a :: as, b :: bs => a == b && listIsPrefixOf as bs

/-- Tests whether `needle` occurs as a contiguous sublist of `hay`. -/
def listContainsSub (hay needle : List Char) : Bool :=
  match hay with
  | [] => needle.isEmpty
  | _ :: rest => listIsPrefixOf needle hay || listContainsSub rest needle

/-- Python substring membership `needle in hay`. -/
def strContainsSub (hay needle : String) : Bool :=
  listContainsSub hay.data needle.data

/-- Python `key in v`: dict key membership, list membership (a string key
can only equal string elements), substring test on strings, `TypeError`
otherwise. -/
def pyContains (v : PyVal) (key : String) : Except PyExc Bool :=
  match v with
  | .dict fs => Except.ok (fs.any (fun kv => kv.1 == key))
  | .list xs =>
    Except.ok (xs.any (fun x => match x with | .str s => s == key | _ => false))
  | .str s => Except.ok (strContainsSub s key)
  | _ => Except.error (.other ("TypeError") ("argument is not iterable"))

/-- Python `v[key] = x`: only dicts support item assignment here. -/
def pySetItem (v : PyVal) (key : String) (x : PyVal) : Except PyExc PyVal :=
  match v with
  | .dict fs => Except.ok (.dict (dictSet fs key x))
  | _ => Except.error (.other ("TypeError") ("object does not support item assignment"))

/-- Renders a rational the way the decimal string of the merged
`num` constructor would print; container/quote details of Python `repr`
are approximated (no claim depends on them). -/
def ratRepr (q : ℚ) : String :=
  if q.den = 1 then toString q.num else toString q.num ++ "/" ++ toString q.den

mutual

/-- Python `repr`, used for elements inside containers by `str`. -/
def pyRepr : PyVal → String
  | .none => "None"
  | .bool true => "True"
  | .bool false => "False"
  | .int n => toString n
  | .num q => ratRepr q
  | .str s => "\x27" ++ s ++ "\x27"
  | .list xs => "[" ++ pyReprList xs ++ "]"
  | .dict fs => "\x7b" ++ pyReprDict fs ++ "\x7d"

def pyReprList : List PyVal → String
  | [] => ""
  | [x] => pyRepr x
  | x :: y :: rest => pyRepr x ++ ", " ++ pyReprList (y :: rest)

def pyReprDict : List (String × PyVal) → String
  | [] => ""
  | [(k, v)] => "\x27" ++ k ++ "\x27: " ++ pyRepr v
  | (k, v) :: fs₂ :: rest =>
    "\x27" ++ k ++ "\x27: " ++ pyRepr v ++ ", " ++ pyReprDict (fs₂ :: rest)

end

/-- Python `str()`, as used by `str(stage3)` in `Query.execute` and by
f-string interpolation. -/
def pyStr : PyVal → String
  | .str s => s
  | v => pyRepr v

/-- Python type rendering for the `assert_isinstance` message.  The merged
`num` constructor is rendered as `float`. -/
def pyTypeName : PyVal → String
  | .none => "<class \x27NoneType\x27>"
  | .bool _ => "<class \x27bool\x27>"
  | .int _ => "<class \x27int\x27>"
  | .num _ => "<class \x27float\x27>"
  | .str _ => "<class \x27str\x27>"
  | .list _ => "<class \x27list\x27>"
  | .dict _ => "<class \x27dict\x27>"

/-- The class name of an exception, as used by
`str(type(error).__name__)` in the generic handler of `Query.execute`. -/
def pyExcName : PyExc → String
  | .queryError _ _ => "QueryError"
  | .httpError _ => "HTTPError"
  | .valueError n _ => n
  | .other n _ => n

/-- Python `str(error)`: `QueryError.__str__` is the classified
`"({code}) {message}"` form; for library exceptions the message itself
(`repr` decorations of e.g. `KeyError` are approximated away — no claim
depends on them). -/
def pyExcMsg : PyExc → String
  | .queryError c m => "(" ++ toString c ++ ") " ++ m
  | .httpError m => m
  | .valueError _ m => m
  | .other _ m => m

/-- Digits of a decimal literal folded to a natural number. -/
def digitsToNat (ds : List Char) : Nat :=
  ds.foldl (fun a c => a * 10 + (c.toNat - 48)) 0

/-- Parses an optional exponent suffix (`e`/`E`, optional sign, digits). -/
def parseExponent : List Char → Option Int
  | [] => some 0
  | c :: rest =>
    if c == 'e' || c == 'E' then
      match rest with
      | '+' :: ds => if ds ≠ [] && ds.all Char.isDigit then some (digitsToNat ds) else Option.none
      | '-' :: ds => if ds ≠ [] && ds.all Char.isDigit then some (-(digitsToNat ds : Int)) else Option.none
      | ds => if ds ≠ [] && ds.all Char.isDigit then some (digitsToNat ds) else Option.none
    else Option.none

/-- Parses an unsigned decimal literal (`123`, `1.5`, `.5`, `2e-3`, …)
into an exact rational. -/
def parseUnsignedDecimal (cs : List Char) : Option ℚ :=
  let intPart := cs.takeWhile Char.isDigit
  let rest := cs.dropWhile Char.isDigit
  match rest with
  | '.' :: rest₂ =>
    let fracPart := rest₂.takeWhile Char.isDigit
    let rest₃ := rest₂.dropWhile Char.isDigit
    if intPart.isEmpty && fracPart.isEmpty then Option.none
    else
      (parseExponent rest₃).map (fun e =>
        ((digitsToNat intPart * 10 ^ fracPart.length + digitsToNat fracPart : ℚ)
          / (10 ^ fracPart.length : ℚ)) * (10 : ℚ) ^ e)
  | _ =>
    if intPart.isEmpty then Option.none
    else (parseExponent rest).map (fun e => (digitsToNat intPart : ℚ) * (10 : ℚ) ^ e)

/-- ASCII whitespace, for the stripping `Decimal(str)` performs. -/
def isSpaceChar (c : Char) : Bool :=
  c == ' ' || c == '\t' || c == '\n' || c == '\r' || c == '\x0b' || c == '\x0c'

/-- Strips whitespace from both ends. -/
def trimChars (cs : List Char) : List Char :=
  ((cs.dropWhile isSpaceChar).reverse.dropWhile isSpaceChar).reverse

/-- Parses a signed decimal string the way `Decimal(str)` accepts it
(whitespace stripped, optional sign, digits/point/exponent).  The special
values `NaN`/`Infinity`, which `Decimal` also accepts, are not modelled —
no claim exercises them. -/
def parseDecimalString (s : String) : Option ℚ :=
  match trimChars s.data with
  | '+' :: cs => parseUnsignedDecimal cs
  | '-' :: cs => (parseUnsignedDecimal cs).map Neg.neg
  | cs => parseUnsignedDecimal cs

/-- Python `Decimal(x)` coercion: exact for `int`, `bool` and numbers;
`decimal.InvalidOperation` on a malformed string; `TypeError` on `None`,
lists and dicts. -/
def pyDecimal (v : PyVal) : Except PyExc ℚ :=
  match v with
  | .int n => Except.ok (n : ℚ)
  | .num q => Except.ok q
  | .bool b => Except.ok (if b then 1 else 0)
  | .str s =>
    match parseDecimalString s with
    | some q => Except.ok q
    | Option.none =>
      Except.error (.other ("InvalidOperation") ("[<class \x27decimal.ConversionSyntax\x27>]"))
  | .none => Except.error (.other ("TypeError") ("conversion from NoneType to Decimal is not supported"))
  | .list _ => Except.error (.other ("TypeError") ("conversion from list to Decimal is not supported"))
  | .dict _ => Except.error (.other ("TypeError") ("conversion from dict to Decimal is not supported"))

/-- The list comprehension `[Decimal(x) for x in data]`: left to right,
failing at the first non-coercible element. -/
def map_decimal : List PyVal → Except PyExc (List ℚ)
  | [] => Except.ok []
  | x :: xs => do
    let q ← pyDecimal x
    let rest ← map_decimal xs
    pure (q :: rest)

/-- Insertion into a sorted list, for `sorted(data)` in `statistics.median`. -/
def insertSorted (x : ℚ) : List ℚ → List ℚ
  | [] => [x]
  | y :: ys => if x ≤ y then x :: y :: ys else y :: insertSorted x ys

/-- Sorting as used by `statistics.median`. -/
def sortRat (xs : List ℚ) : List ℚ :=
  xs.foldr insertSorted []

/-- A terminating rational approximation of the square root taken by
`statistics.stdev` (Newton steps).  The numeric value of `STDEV` is not
examined by any claim; only the arity check before it is. -/
def ratSqrtNewton : Nat → ℚ → ℚ → ℚ
  | 0, _, x => x
  | n + 1, q, x => if x == 0 then 0 else ratSqrtNewton n q ((x + q / x) / 2)

def ratSqrtApprox (q : ℚ) : ℚ :=
  if q ≤ 0 then 0 else ratSqrtNewton 3 q (max q 1)

/-- The sample variance `sum((x - mean)^2) / (n - 1)`. -/
def sample_variance (xs : List ℚ) : ℚ :=
  let n : ℚ := xs.length
  let m := xs.sum / n
  (xs.map (fun x => (x - m) * (x - m))).sum / (n - 1)

/-- `statistics.mean`; `statistics.StatisticsError` is a `ValueError`
subclass.  The Fraction-to-Decimal rounding of the library is
approximated by the exact value. -/
def py_mean (xs : List ℚ) : Except PyExc ℚ :=
  if xs.length = 0 then
    Except.error (.valueError ("StatisticsError") ("mean requires at least one data point"))
  else Except.ok (xs.sum / (xs.length : ℚ))

/-- `statistics.median`. -/
def py_median (xs : List ℚ) : Except PyExc ℚ :=
  let s := sortRat xs
  let n := xs.length
  if n = 0 then
    Except.error (.valueError ("StatisticsError") ("no median for empty data"))
  else if n % 2 = 1 then Except.ok (s.getD (n / 2) 0)
  else Except.ok ((s.getD (n / 2 - 1) 0 + s.getD (n / 2) 0) / 2)

/-- `statistics.variance`: undefined for fewer than two data points. -/
def py_variance (xs : List ℚ) : Except PyExc ℚ :=
  if xs.length < 2 then
    Except.error (.valueError ("StatisticsError") ("variance requires at least two data points"))
  else Except.ok (sample_variance xs)

/-- `statistics.stdev`: undefined for fewer than two data points. -/
def py_stdev (xs : List ℚ) : Except PyExc ℚ :=
  if xs.length < 2 then
    Except.error (.valueError ("StatisticsError") ("stdev requires at least two data points"))
  else Except.ok (ratSqrtApprox (sample_variance xs))

/-- Python `max(data)`: `ValueError` on an empty sequence. -/
def py_max (xs : List ℚ) : Except PyExc ℚ :=
  match xs with
  | [] => Except.error (.valueError ("ValueError") ("max() arg is an empty sequence"))
  | x :: rest => Except.ok (rest.foldl max x)

/-- Python `min(data)`: `ValueError` on an empty sequence. -/
def py_min (xs : List ℚ) : Except PyExc ℚ :=
  match xs with
  | [] => Except.error (.valueError ("ValueError") ("min() arg is an empty sequence"))
  | x :: rest => Except.ok (rest.foldl min x)

/-- Python `sum(data)` over Decimals: the empty sum is the `int` 0. -/
def py_sum (xs : List ℚ) : PyVal :=
  match xs with
  | [] => .int 0
  | _ => .num xs.sum

/-- The aggregation-function dictionary of `_execute_aggregation`,
applied to the coerced sequence.  The catch-all arm models the
(unreachable, guarded by the membership test) `KeyError` of the dict
lookup. -/
def apply_aggregation_function (agg : String) (xs : List ℚ) : Except PyExc PyVal :=
  if agg == "AVG" then (py_mean xs).map PyVal.num
  else if agg == "MAX" then (py_max xs).map PyVal.num
  else if agg == "MED" then (py_median xs).map PyVal.num
  else if agg == "MIN" then (py_min xs).map PyVal.num
  else if agg == "STDEV" then (py_stdev xs).map PyVal.num
  else if agg == "SUM" then Except.ok (py_sum xs)
  else if agg == "VAR" then (py_variance xs).map PyVal.num
  else Except.error (.other ("KeyError") agg)

/-- The two HTTP methods the source supports (`requests.get` / `requests.post`). -/
inductive HttpMethod where
  | get
  | post
deriving DecidableEq

/-- A transport response: `status_code`, `reason`, and the outcome of
`response.json()` (which may raise, e.g. a JSON decode `ValueError`). -/
structure HttpResponse where
  status_code : Int
  reason : String
  body : Except PyExc PyVal

/-- The external collaborators, over which every theorem quantifies:
`json.loads`, `jsonpath_ng.parse` (returning, when the expression
compiles, a `find` function that itself may raise), and the
`requests` transport (method, url, headers, data, params). -/
structure Lib where
  json_loads : String → Except PyExc PyVal
  jsonpath_parse : PyVal → Except PyExc (PyVal → Except PyExc (List PyVal))
  transport : HttpMethod → PyVal → PyVal → PyVal → PyVal → Except PyExc HttpResponse

/-- The `Query` object.  Python attributes may be left unset when
`__init__` fails midway (the `try` swallows the error after partial
assignment); an unset attribute is `Option.none` and reads as
`AttributeError`.  Leading underscores of the source attribute names are
dropped. -/
structure Query where
  http_parameters : Option PyVal
  jsonpath_query : Option String
  aggregation : Option String
  secrets : Option (List (String × String))
  valid : Bool

/-- Reads `self._http_parameters`, raising `AttributeError` when
construction failed before assigning it. -/
def Query.attr_http_parameters (q : Query) : Except PyExc PyVal :=
  match q.http_parameters with
  | some v => Except.ok v
  | Option.none =>
    Except.error (.other ("AttributeError")
      ("\x27Query\x27 object has no attribute \x27_http_parameters\x27"))

/-- Reads `self._jsonpath_query`. -/
def Query.attr_jsonpath_query (q : Query) : Except PyExc String :=
  match q.jsonpath_query with
  | some v => Except.ok v
  | Option.none =>
    Except.error (.other ("AttributeError")
      ("\x27Query\x27 object has no attribute \x27_jsonpath_query\x27"))

/-- Reads `self._aggregation`. -/
def Query.attr_aggregation (q : Query) : Except PyExc String :=
  match q.aggregation with
  | some v => Except.ok v
  | Option.none =>
    Except.error (.other ("AttributeError")
      ("\x27Query\x27 object has no attribute \x27_aggregation\x27"))

/-- One `__init__` step `if key not in hp: raise ValueError`
(`str(ValueError())` is the empty message). -/
def require_key (key : String) (hp : PyVal) : Except PyExc PyVal := do
  let c ← pyContains hp key
  if c then pure hp else Except.error (.valueError ("ValueError") (""))

/-- One `__init__` step `if key not in hp[outer]: raise ValueError`. -/
def require_in (outer key : String) (hp : PyVal) : Except PyExc PyVal := do
  let inner ← pySubscript hp outer
  let c ← pyContains inner key
  if c then pure hp else Except.error (.valueError ("ValueError") (""))

/-- One `__init__` step `if key not in hp[outer]: hp[outer][key] = dflt`. -/
def default_in (outer key : String) (dflt : PyVal) (hp : PyVal) : Except PyExc PyVal := do
  let inner ← pySubscript hp outer
  let c ← pyContains inner key
  if c then pure hp
  else do
    let inner₂ ← pySetItem inner key dflt
    pySetItem hp outer inner₂

/-- One `__init__` step `if key not in hp: hp[key] = dflt`. -/
def default_key (key : String) (dflt : PyVal) (hp : PyVal) : Except PyExc PyVal := do
  let c ← pyContains hp key
  if c then pure hp else pySetItem hp key dflt

/-- The validation/defaulting steps of `Query.__init__`, in source order. -/
def init_steps : List (PyVal → Except PyExc PyVal) :=
  [require_key ("request"),
   default_in ("request") ("data") (.dict []),
   default_in ("request") ("headers") (.dict []),
   require_in ("request") ("method"),
   default_in ("request") ("parameters") (.dict []),
   require_in ("request") ("url"),
   default_key ("response") (.dict []),
   default_in ("response") ("data") PyVal.none,
   default_in ("response") ("next") PyVal.none]

/-- Runs the `__init__` steps, keeping the partially mutated
`_http_parameters` when a step raises (the assignment happened first, so
the attribute retains the mutations made so far). -/
def run_init_steps : List (PyVal → Except PyExc PyVal) → PyVal → PyVal × Bool
  | [], hp => (hp, true)
  | s :: rest, hp =>
    match s hp with
    | Except.ok hp₂ => run_init_steps rest hp₂
    | Except.error _ => (hp, false)

/-- `Query.__init__(parameter_list, secrets)`: any exception is swallowed
and recorded as `_valid = False`, leaving the attributes assigned so far.
A short `parameter_list` raises `IndexError` at the corresponding
subscript; extra fields beyond the third are ignored by the source. -/
def Query.mk_query (lib : Lib) (parameter_list : List String)
    (secrets : List (String × String)) : Query :=
  match parameter_list.get? 0 with
  | Option.none => ⟨Option.none, Option.none, Option.none, Option.none, false⟩
  | some p0 =>
    match lib.json_loads p0 with
    | Except.error _ => ⟨Option.none, Option.none, Option.none, Option.none, false⟩
    | Except.ok hp0 =>
      match run_init_steps init_steps hp0 with
      | (hp, false) => ⟨some hp, Option.none, Option.none, Option.none, false⟩
      | (hp, true) =>
        match parameter_list.get? 1 with
        | Option.none => ⟨some hp, Option.none, Option.none, Option.none, false⟩
        | some p1 =>
          match parameter_list.get? 2 with
          | Option.none => ⟨some hp, some p1, Option.none, Option.none, false⟩
          | some p2 => ⟨some hp, some p1, some p2, some secrets, true⟩

/-- `assert_isinstance(data, List)`: the only instantiation the source
uses.  Raises the classified `AGGREGATION_WRONG_DATATYPE` `QueryError`
(message typo `excpected` as in the source). -/
def assert_isinstance_list (data : PyVal) : Except PyExc (List PyVal) :=
  match data with
  | .list xs => Except.ok xs
  | _ =>
    Except.error (.queryError AGGREGATION_WRONG_DATATYPE
      ("Type of data is " ++ pyTypeName data ++ ", excpected typing.List"))

/-- `Query._execute_aggregation`: identity for the empty operator,
`COUNT` after a list check, the seven numeric operators after a list
check and elementwise `Decimal` coercion, and the classified
`AGGREGATION_INVALID_OPERATOR` error otherwise. -/
def Query.execute_aggregation (q : Query) (data : PyVal) : Except PyExc PyVal := do
  let agg ← q.attr_aggregation
  if agg == "" then pure data
  else if agg == "COUNT" then do
    let xs ← assert_isinstance_list data
    pure (.int (xs.length : Int))
  else if ["AVG", "MAX", "MED", "MIN", "STDEV", "SUM", "VAR"].contains agg then do
    let xs ← assert_isinstance_list data
    let qs ← map_decimal xs
    apply_aggregation_function agg qs
  else
    Except.error (.queryError AGGREGATION_INVALID_OPERATOR
      ("Unknown aggregation operator " ++ agg))

/-- `Query._execute_jsonpath`: the empty query is the identity; otherwise
`parse`/`find` run inside a `try` whose handler re-raises any exception
as the classified `JSONPATH_SYNTAX_ERROR` with `str(error)` as message. -/
def Query.execute_jsonpath (lib : Lib) (q : Query) (data : PyVal) : Except PyExc PyVal := do
  let jq ← q.attr_jsonpath_query
  if jq == "" then pure data
  else
    match lib.jsonpath_parse (.str jq) with
    | Except.error e => Except.error (.queryError JSONPATH_SYNTAX_ERROR (pyExcMsg e))
    | Except.ok f =>
      match f data with
      | Except.error e => Except.error (.queryError JSONPATH_SYNTAX_ERROR (pyExcMsg e))
      | Except.ok ms => pure (.list ms)

/-- `Query._get_response_json_data`: the whole document when no
`response.data` path is configured, otherwise the first JSONPath match or
`None` when there is no match. -/
def Query.get_response_json_data (lib : Lib) (q : Query) (response_json : PyVal) :
    Except PyExc PyVal := do
  let hp ← q.attr_http_parameters
  let resp ← pySubscript hp ("response")
  let d ← pySubscript resp ("data")
  if d.isNone then pure response_json
  else do
    let f ← lib.jsonpath_parse d
    let ms ← f response_json
    match ms with
    | [] => pure PyVal.none
    | m :: _ => pure m

/-- `Query._get_response_json_next_page`: `None` when no `response.next`
path is configured, otherwise the first JSONPath match or `None`. -/
def Query.get_response_json_next_page (lib : Lib) (q : Query) (response_json : PyVal) :
    Except PyExc PyVal := do
  let hp ← q.attr_http_parameters
  let resp ← pySubscript hp ("response")
  let nx ← pySubscript resp ("next")
  if nx.isNone then pure PyVal.none
  else do
    let f ← lib.jsonpath_parse nx
    let ms ← f response_json
    match ms with
    | [] => pure PyVal.none
    | m :: _ => pure m

/-- The method-dictionary lookup `{"GET": requests.get, "POST": requests.post}.get(...)`. -/
def method_function (m : PyVal) : Option HttpMethod :=
  match m with
  | .str s =>
    if s == "GET" then some HttpMethod.get
    else if s == "POST" then some HttpMethod.post
    else Option.none
  | _ => Option.none

/-- Reads `self._http_parameters['request']['method']`. -/
def Query.request_method (q : Query) : Except PyExc PyVal := do
  let hp ← q.attr_http_parameters
  let req ← pySubscript hp ("request")
  pySubscript req ("method")

/-- Reads the keyword arguments of the transport call, in evaluation
order `headers`, `data`, `params`. -/
def Query.request_args (q : Query) : Except PyExc (PyVal × PyVal × PyVal) := do
  let hp ← q.attr_http_parameters
  let req ← pySubscript hp ("request")
  let h ← pySubscript req ("headers")
  let d ← pySubscript req ("data")
  let p ← pySubscript req ("parameters")
  pure (h, d, p)

/-- Reads `self._http_parameters['request']['url']`. -/
def Query.request_url (q : Query) : Except PyExc PyVal := do
  let hp ← q.attr_http_parameters
  let req ← pySubscript hp ("request")
  pySubscript req ("url")

/-- Reads `self._http_parameters['response']['next']`. -/
def Query.response_next_config (q : Query) : Except PyExc PyVal := do
  let hp ← q.attr_http_parameters
  let resp ← pySubscript hp ("response")
  pySubscript resp ("next")

/-- The `except` clauses of `_make_request`: `requests.HTTPError` is
re-raised as `QueryError(response.status_code, response.reason)` (when
the `response` local was never bound, accessing it in the handler raises
`UnboundLocalError`); any `ValueError` — in the source, a response body
that fails to parse as JSON — is re-raised as
`QueryError(INVALID_QUERY, ...)`; everything else propagates. -/
def request_try_handler (e : PyExc) (response : Option HttpResponse) : Except PyExc PyVal :=
  match e, response with
  | .httpError _, some resp => Except.error (.queryError resp.status_code resp.reason)
  | .httpError _, Option.none =>
    Except.error (.other ("UnboundLocalError")
      ("local variable \x27response\x27 referenced before assignment"))
  | .valueError _ _, _ => Except.error (.queryError INVALID_QUERY ("Could not parse response JSON"))
  | e, _ => Except.error e

/-- `Query._make_request(url)`.  Returns the outcome together with the
list of URLs actually passed to the transport (instrumentation for
request counting: empty when the method check or the argument reads fail
before any network call).  `raise_for_status` raises `requests.HTTPError`
exactly for status codes in `[400, 600)`.  The dead
`if not function: raise QueryError(UNKNOWN_ERROR, ...)` branch of the
source (a function object is always truthy) is not modelled. -/
def Query.make_request (lib : Lib) (q : Query) (url : PyVal) :
    Except PyExc PyVal × List PyVal :=
  match q.request_method with
  | Except.error e => (Except.error e, [])
  | Except.ok mval =>
    match method_function mval with
    | Option.none =>
      (Except.error (.queryError INVALID_OR_UNSUPPORTED_HTTP_METHOD
        ("Unknown or unsopported HTTP method " ++ pyStr mval)), [])
    | some meth =>
      match q.request_args with
      | Except.error e => (request_try_handler e Option.none, [])
      | Except.ok (h, d, p) =>
        match lib.transport meth url h d p with
        | Except.error e => (request_try_handler e Option.none, [url])
        | Except.ok resp =>
          if 400 ≤ resp.status_code ∧ resp.status_code < 600 then
            (request_try_handler (.httpError (resp.reason)) (some resp), [url])
          else
            match resp.body with
            | Except.ok v => (Except.ok v, [url])
            | Except.error e => (request_try_handler e (some resp), [url])

/-- The `while next_page:` loop of `_execute_rest`, with explicit fuel:
`Option.none` means the loop has not finished within `fuel` iterations.
Accumulates the extracted page data (`result`) and the transport call log. -/
def Query.rest_loop (lib : Lib) (q : Query) (fuel : Nat) (next_page : PyVal)
    (result log : List PyVal) : Option (Except PyExc PyVal × List PyVal) :=
  if pyTruthy next_page then
    match fuel with
    | 0 => Option.none
    | fuel' + 1 =>
      match q.make_request lib next_page with
      | (Except.error e, l₁) => some (Except.error e, log ++ l₁)
      | (Except.ok response_json, l₁) =>
        match q.get_response_json_data lib response_json with
        | Except.error e => some (Except.error e, log ++ l₁)
        | Except.ok d =>
          match q.get_response_json_next_page lib response_json with
          | Except.error e => some (Except.error e, log ++ l₁)
          | Except.ok np => Query.rest_loop lib q fuel' np (result ++ [d]) (log ++ l₁)
  else some (Except.ok (.list result), log)

/-- `Query._execute_rest`: the cursor-following loop when
`response.next` is truthy, a single request otherwise (the single-request
branch passes the raw response document on, without applying
`response.data`). -/
def Query.execute_rest (lib : Lib) (q : Query) (fuel : Nat) :
    Option (Except PyExc PyVal × List PyVal) :=
  match q.response_next_config with
  | Except.error e => some (Except.error e, [])
  | Except.ok nextcfg =>
    if pyTruthy nextcfg then
      match q.request_url with
      | Except.error e => some (Except.error e, [])
      | Except.ok u => Query.rest_loop lib q fuel u [] []
    else
      match q.request_url with
      | Except.error e => some (Except.error e, [])
      | Except.ok u => some (q.make_request lib u)

/-- The success row of `Query.execute`: stringified result, UTF-8 byte
size, element count (`-1` for non-lists), `'0'`, `''`, both timestamps. -/
def success_row (stage3 : PyVal) (query_start query_end : String) : List PyVal :=
  [.str (pyStr stage3),
   .int ((pyStr stage3).utf8ByteSize : Int),
   .int (match stage3 with | .list xs => (xs.length : Int) | _ => -1),
   .str ("0"), .str (""), .str query_start, .str query_end]

/-- The failure row of `Query.execute`: `['', '0', '-1', code, message,
query_start, query_end]` (the code is the raw integer, as in the source). -/
def failure_row (code : Int) (message : String) (query_start query_end : String) : List PyVal :=
  [.str (""), .str ("0"), .str ("-1"), .int code, .str message,
   .str query_start, .str query_end]

/-- `Query.execute()`: the three stages inside a `try`; a `QueryError`
yields its classified failure row, any other exception yields the
`UNKNOWN_ERROR` row with `type(error).__name__ + ': ' + str(error)`.
The two timestamps are passed in as the entry/exit clock readings; the
transport call log is returned alongside the row; `Option.none` means the
pagination loop has not finished within `fuel`. -/
def Query.execute (lib : Lib) (q : Query) (fuel : Nat) (query_start query_end : String) :
    Option (List PyVal × List PyVal) :=
  match q.execute_rest lib fuel with
  | Option.none => Option.none
  | some (stage1, log) =>
    match (do
        let s1 ← stage1
        let s2 ← q.execute_jsonpath lib s1
        q.execute_aggregation s2 : Except PyExc PyVal) with
    | Except.ok stage3 => some (success_row stage3 query_start query_end, log)
    | Except.error (.queryError c m) => some (failure_row c m query_start query_end, log)
    | Except.error e =>
      some (failure_row UNKNOWN_ERROR (pyExcName e ++ ": " ++ pyExcMsg e)
        query_start query_end, log)

/-- `GoogleSheet.get_queries`: one `Query` per raw row after the header. -/
def get_queries (lib : Lib) (sheet_values : List (List String))
    (secrets : List (String × String)) : List Query :=
  (sheet_values.drop 1).map (fun row => Query.mk_query lib row secrets)

/-- The result list built by `GoogleSheet.execute_all_queries`
(`[query.execute() for query in self.get_queries()]`); writing it to the
sheet is collaborator plumbing and not modelled. -/
def execute_all_queries (lib : Lib) (sheet_values : List (List String))
    (secrets : List (String × String)) (fuel : Nat) (query_start query_end : String) :
    List (Option (List PyVal × List PyVal)) :=
  (get_queries lib sheet_values secrets).map
    (fun q => q.execute lib fuel query_start query_end)

/-- The shape `_http_parameters` has after a successful `__init__` (all
required fields present, all defaults applied): a `request` object with
`method`, `url`, `data`, `headers`, `parameters` and a `response` object
with `data` and `next`. -/
def mkHttpDict (method url data headers parameters data_path next_path : PyVal) : PyVal :=
  .dict [("request", .dict [("method", method), ("url", url), ("data", data),
            ("headers", headers), ("parameters", parameters)]),
         ("response", .dict [("data", data_path), ("next", next_path)])]

theorem request_method_mk (q : Query) (m uv dv hv pv dp np : PyVal)
    (hq : q.http_parameters = some (mkHttpDict m uv dv hv pv dp np)) :
    q.request_method = Except.ok m := by
  unfold Query.request_method Query.attr_http_parameters
  rw [hq]
  rfl

theorem request_args_mk (q : Query) (m uv dv hv pv dp np : PyVal)
    (hq : q.http_parameters = some (mkHttpDict m uv dv hv pv dp np)) :
    q.request_args = Except.ok (hv, dv, pv) := by
  unfold Query.request_args Query.attr_http_parameters
  rw [hq]
  rfl

theorem request_url_mk (q : Query) (m uv dv hv pv dp np : PyVal)
    (hq : q.http_parameters = some (mkHttpDict m uv dv hv pv dp np)) :
    q.request_url = Except.ok uv := by
  unfold Query.request_url Query.attr_http_parameters
  rw [hq]
  rfl

theorem response_next_config_mk (q : Query) (m uv dv hv pv dp np : PyVal)
    (hq : q.http_parameters = some (mkHttpDict m uv dv hv pv dp np)) :
    q.response_next_config = Except.ok np := by
  unfold Query.response_next_config Query.attr_http_parameters
  rw [hq]
  rfl

/-- With no `response.data` path configured, `_get_response_json_data`
returns the whole response document. -/
theorem get_response_json_data_whole (lib : Lib) (q : Query) (m uv dv hv pv np doc : PyVal)
    (hq : q.http_parameters = some (mkHttpDict m uv dv hv pv PyVal.none np)) :
    q.get_response_json_data lib doc = Except.ok doc := by
  unfold Query.get_response_json_data Query.attr_http_parameters
  rw [hq]
  rfl

/-- With a `response.data` path configured, `_get_response_json_data`
returns the first match, or `None` when the path matches nothing. -/
theorem get_response_json_data_first_match (lib : Lib) (q : Query)
    (m uv dv hv pv np doc : PyVal) (dpath : String) (df : PyVal → Except PyExc (List PyVal))
    (ms : List PyVal)
    (hq : q.http_parameters = some (mkHttpDict m uv dv hv pv (.str dpath) np))
    (hdf : lib.jsonpath_parse (.str dpath) = Except.ok df)
    (hms : df doc = Except.ok ms) :
    q.get_response_json_data lib doc = Except.ok (ms.headD PyVal.none) := by
  unfold Query.get_response_json_data Query.attr_http_parameters
  rw [hq]
  show (do
    let f ← lib.jsonpath_parse (.str dpath)
    let ms₂ ← f doc
    match ms₂ with
    | [] => pure PyVal.none
    | m₂ :: _ => pure m₂ : Except PyExc PyVal) = Except.ok (ms.headD PyVal.none)
  rw [hdf]
  show (do
    let ms₂ ← df doc
    match ms₂ with
    | [] => pure PyVal.none
    | m₂ :: _ => pure m₂ : Except PyExc PyVal) = Except.ok (ms.headD PyVal.none)
  rw [hms]
  cases ms <;> rfl

/-- With a `response.next` path configured, `_get_response_json_next_page`
returns the first match, or `None` when the path matches nothing. -/
theorem get_response_json_next_page_first_match (lib : Lib) (q : Query)
    (m uv dv hv pv dp doc : PyVal) (npath : String) (nf : PyVal → Except PyExc (List PyVal))
    (ms : List PyVal)
    (hq : q.http_parameters = some (mkHttpDict m uv dv hv pv dp (.str npath)))
    (hnf : lib.jsonpath_parse (.str npath) = Except.ok nf)
    (hms : nf doc = Except.ok ms) :
    q.get_response_json_next_page lib doc = Except.ok (ms.headD PyVal.none) := by
  unfold Query.get_response_json_next_page Query.attr_http_parameters
  rw [hq]
  show (do
    let f ← lib.jsonpath_parse (.str npath)
    let ms₂ ← f doc
    match ms₂ with
    | [] => pure PyVal.none
    | m₂ :: _ => pure m₂ : Except PyExc PyVal) = Except.ok (ms.headD PyVal.none)
  rw [hnf]
  show (do
    let ms₂ ← nf doc
    match ms₂ with
    | [] => pure PyVal.none
    | m₂ :: _ => pure m₂ : Except PyExc PyVal) = Except.ok (ms.headD PyVal.none)
  rw [hms]
  cases ms <;> rfl

/-- A `GET` request whose transport call succeeds with a status outside
`[400, 600)` and a parseable body returns that body, having issued
exactly one transport call. -/
theorem make_request_ok (lib : Lib) (q : Query) (uv dv hv pv dp np u p : PyVal)
    (s : Int) (r : String)
    (hq : q.http_parameters = some (mkHttpDict (.str ("GET")) uv dv hv pv dp np))
    (ht : lib.transport HttpMethod.get u hv dv pv = Except.ok ⟨s, r, Except.ok p⟩)
    (hs : ¬(400 ≤ s ∧ s < 600)) :
    q.make_request lib u = (Except.ok p, [u]) := by
  unfold Query.make_request
  rw [request_method_mk q _ _ _ _ _ _ _ hq, request_args_mk q _ _ _ _ _ _ _ hq]
  show (match lib.transport HttpMethod.get u hv dv pv with
    | Except.error e => (request_try_handler e Option.none, [u])
    | Except.ok resp =>
      if 400 ≤ resp.status_code ∧ resp.status_code < 600 then
        (request_try_handler (.httpError (resp.reason)) (some resp), [u])
      else
        match resp.body with
        | Except.ok v => (Except.ok v, [u])
        | Except.error e => (request_try_handler e (some resp), [u])) = (Except.ok p, [u])
  rw [ht]
  simp only [if_neg hs]

/-- C1: for every query object (valid or invalid), every behaviour of the
transport and JSONPath library, and every terminating pipeline run,
`execute()` returns a 7-field result row whose two timestamps are the
entry and exit clock readings; every failure path returns exactly
`('', '0', '-1', code, message, query_start, query_end)`.  Exception
safety is structural: the codomain of `Query.execute` has no exception
outcome, so nothing can propagate to the caller; the `Option.none` case
excluded by the hypothesis is only the pagination loop exceeding its
fuel (the non-termination possibility settled separately for C9). -/
theorem execute_result_row_shape (lib : Lib) (q : Query) (fuel : Nat) (t1 t2 : String)
    (row log : List PyVal)
    (h : q.execute lib fuel t1 t2 = some (row, log)) :
    row.length = 7 ∧
    row.get? 5 = some (.str t1) ∧ row.get? 6 = some (.str t2) ∧
    ((∃ v, row = success_row v t1 t2) ∨ ∃ c msg, row = failure_row c msg t1 t2) := by
  unfold Query.execute at h
  split at h
  · exact Option.noConfusion h
  · split at h <;>
      simp only [Option.some.injEq, Prod.mk.injEq] at h <;>
      obtain ⟨rfl, rfl⟩ := h <;>
      first
      | exact ⟨rfl, rfl, rfl, Or.inl ⟨_, rfl⟩⟩
      | exact ⟨rfl, rfl, rfl, Or.inr ⟨_, _, rfl⟩⟩

/-- A library oracle whose calls all fail, for witnesses. -/
def w1Lib : Lib :=
  ⟨fun _ => Except.error (.valueError ("JSONDecodeError") ("Expecting value")),
   fun _ => Except.error (.valueError ("JsonPathParserError") ("parse error")),
   fun _ _ _ _ _ => Except.error (.other ("ConnectionError") ("connection refused"))⟩

/-- A query object none of whose attributes were assigned (total
construction failure). -/
def w1Q : Query := ⟨Option.none, Option.none, Option.none, Option.none, false⟩

/-- The row `execute` produces for `w1Q`. -/
def w1Row : List PyVal :=
  failure_row UNKNOWN_ERROR
    ("AttributeError: \x27Query\x27 object has no attribute \x27_http_parameters\x27")
    ("s") ("e")

/-- Witness for C1 at a concrete query and library. -/
theorem execute_result_row_shape_witness :
    w1Row.length = 7 ∧
    w1Row.get? 5 = some (.str ("s")) ∧ w1Row.get? 6 = some (.str ("e")) ∧
    ((∃ v, w1Row = success_row v ("s") ("e")) ∨
      ∃ c msg, w1Row = failure_row c msg ("s") ("e")) :=
  execute_result_row_shape w1Lib w1Q 1 ("s") ("e") w1Row [] rfl

/-- Library oracle for the C2 evaluation: `json.loads` raises a decode
error on the malformed field and parses the well-formed single-field
row's blob; the transport answers 200 with an empty JSON object. -/
def c2Lib : Lib :=
  ⟨fun s =>
    if s == "oops" then
      Except.error (.valueError ("JSONDecodeError") ("Expecting value: line 1 column 1 (char 0)"))
    else
      Except.ok (.dict [("request", .dict [("method", .str ("GET")), ("url", .str ("http://x"))])]),
   fun _ => Except.error (.valueError ("JsonPathParserError") ("parse error")),
   fun _ _ _ _ _ => Except.ok ⟨200, "OK", Except.ok (.dict [])⟩⟩

/-- C2, evaluated at the failing inputs: a row whose first field is not
JSON yields `_valid = False`, yet `execute()` returns the
`UNKNOWN_ERROR` (-999) row — `execute` never consults `_valid`, so the
`INVALID_QUERY` class never surfaces; worse, a single-field row whose
blob is valid JSON is also invalid (`IndexError` on the second field)
but `execute()` still issues a network request (the transport log is
nonempty) before failing with `UNKNOWN_ERROR`. -/
theorem invalid_query_unknown_error_eval :
    (Query.mk_query c2Lib ["oops", "", ""] []).valid = false ∧
    Query.execute c2Lib (Query.mk_query c2Lib ["oops", "", ""] []) 1 ("s") ("e") =
      some (failure_row UNKNOWN_ERROR
        ("AttributeError: \x27Query\x27 object has no attribute \x27_http_parameters\x27")
        ("s") ("e"), []) ∧
    (Query.mk_query c2Lib ["onefield"] []).valid = false ∧
    Query.execute c2Lib (Query.mk_query c2Lib ["onefield"] []) 1 ("s") ("e") =
      some (failure_row UNKNOWN_ERROR
        ("AttributeError: \x27Query\x27 object has no attribute \x27_jsonpath_query\x27")
        ("s") ("e"), [.str ("http://x")]) ∧
    UNKNOWN_ERROR ≠ INVALID_QUERY :=
  ⟨rfl, rfl, rfl, rfl, by decide⟩

/-- C3: the batch runner produces exactly one result row per data row
(the sheet's header row is dropped), in input order: the i-th output is
the execution of the query constructed from the i-th input row.  The
runner cannot raise for a failing row: `Query.execute` is total (its only
non-row outcome is pagination fuel exhaustion, which is a property of the
transport behaviour, not of row validity). -/
theorem execute_all_queries_length_and_order (lib : Lib) (sv : List (List String))
    (secrets : List (String × String)) (fuel : Nat) (t1 t2 : String) (i : Nat)
    (h : i < (sv.drop 1).length) :
    (execute_all_queries lib sv secrets fuel t1 t2).length = (sv.drop 1).length ∧
    (execute_all_queries lib sv secrets fuel t1 t2).get? i =
      some (Query.execute lib (Query.mk_query lib ((sv.drop 1).get ⟨i, h⟩) secrets)
        fuel t1 t2) := by
  constructor
  · simp [execute_all_queries, get_queries]
  · simp only [execute_all_queries, get_queries, List.get?_map, List.get?_eq_get h]
    have hlen : i + 1 < sv.length := by
      have h₂ := h
      simp only [List.length_drop] at h₂
      omega
    simp [List.getElem?_eq_getElem hlen]

/-- A two-row sheet (header plus one malformed data row) for the C3 witness. -/
def w3Sv : List (List String) := [["h1", "h2", "h3"], ["oops", "", ""]]

/-- Witness for C3 at a concrete sheet. -/
theorem execute_all_queries_length_and_order_witness :
    (execute_all_queries c2Lib w3Sv [] 1 ("s") ("e")).length = 1 ∧
    (execute_all_queries c2Lib w3Sv [] 1 ("s") ("e")).get? 0 =
      some (Query.execute c2Lib (Query.mk_query c2Lib ["oops", "", ""] []) 1 ("s") ("e")) :=
  execute_all_queries_length_and_order c2Lib w3Sv [] 1 ("s") ("e") 0 (by decide)

/-- One unrolling of the `while next_page:` loop when the cursor is truthy. -/
theorem rest_loop_step (lib : Lib) (q : Query) (fuel : Nat) (u : PyVal)
    (acc log : List PyVal) (hu : pyTruthy u = true) :
    Query.rest_loop lib q (fuel + 1) u acc log =
      match q.make_request lib u with
      | (Except.error e, l₁) => some (Except.error e, log ++ l₁)
      | (Except.ok rj, l₁) =>
        match q.get_response_json_data lib rj with
        | Except.error e => some (Except.error e, log ++ l₁)
        | Except.ok d =>
          match q.get_response_json_next_page lib rj with
          | Except.error e => some (Except.error e, log ++ l₁)
          | Except.ok np => Query.rest_loop lib q fuel np (acc ++ [d]) (log ++ l₁) := by
  rw [Query.rest_loop.eq_def, if_pos hu]

/-- The loop exits, returning the accumulated list, once the cursor is falsy. -/
theorem rest_loop_exit (lib : Lib) (q : Query) (fuel : Nat) (u : PyVal)
    (acc log : List PyVal) (hu : pyTruthy u = false) :
    Query.rest_loop lib q fuel u acc log = some (Except.ok (.list acc), log) := by
  rw [Query.rest_loop.eq_def, if_neg (by simp [hu])]

/-- A finite pagination chain of `(url, page, extracted)` nodes: at each
node the transport answers the node's (truthy) URL with status 200 and
the node's page, the data extraction yields the node's element, and the
next-page extraction yields the next node's URL — or `None` at the last
node (the next pointer resolves to no match). -/
inductive PageChain (lib : Lib) (q : Query) (hv dv pv : PyVal) :
    PyVal → List (PyVal × PyVal × PyVal) → Prop where
  | last (u p e : PyVal) (hu : pyTruthy u = true)
      (ht : lib.transport HttpMethod.get u hv dv pv = Except.ok ⟨200, "OK", Except.ok p⟩)
      (he : q.get_response_json_data lib p = Except.ok e)
      (hn : q.get_response_json_next_page lib p = Except.ok PyVal.none) :
      PageChain lib q hv dv pv u [(u, p, e)]
  | cons (u p e u₂ : PyVal) (rest : List (PyVal × PyVal × PyVal)) (hu : pyTruthy u = true)
      (ht : lib.transport HttpMethod.get u hv dv pv = Except.ok ⟨200, "OK", Except.ok p⟩)
      (he : q.get_response_json_data lib p = Except.ok e)
      (hn : q.get_response_json_next_page lib p = Except.ok u₂)
      (hrest : PageChain lib q hv dv pv u₂ rest) :
      PageChain lib q hv dv pv u ((u, p, e) :: rest)

/-- Along a pagination chain the loop terminates (given fuel at least the
chain length), visiting every node exactly once: it appends exactly the
extracted elements in chain order and issues exactly the chain's URLs. -/
theorem rest_loop_chain (lib : Lib) (q : Query) (uv dv hv pv dp np : PyVal)
    (hq : q.http_parameters = some (mkHttpDict (.str ("GET")) uv dv hv pv dp np))
    (ch : List (PyVal × PyVal × PyVal)) (u : PyVal)
    (hch : PageChain lib q hv dv pv u ch) :
    ∀ (fuel : Nat) (acc log : List PyVal), ch.length ≤ fuel →
    Query.rest_loop lib q fuel u acc log =
      some (Except.ok (.list (acc ++ ch.map (fun x => x.2.2))),
        log ++ ch.map (fun x => x.1)) := by
  induction hch with
  | last u p e hu ht he hn =>
    intro fuel acc log hfuel
    match fuel, hfuel with
    | f + 1, _ =>
      rw [rest_loop_step lib q f u acc log hu]
      simp only [make_request_ok lib q uv dv hv pv dp np u p 200 "OK" hq ht (by decide),
        he, hn]
      rw [rest_loop_exit lib q f PyVal.none (acc ++ [e]) (log ++ [u]) rfl]
      simp
  | cons u p e u₂ rest hu ht he hn hrest ih =>
    intro fuel acc log hfuel
    match fuel, hfuel with
    | f + 1, hfuel =>
      rw [rest_loop_step lib q f u acc log hu]
      simp only [make_request_ok lib q uv dv hv pv dp np u p 200 "OK" hq ht (by decide),
        he, hn]
      rw [ih f (acc ++ [e]) (log ++ [u]) (Nat.succ_le_succ_iff.mp hfuel)]
      simp

/-- C4: with `response.next` configured and a mocked transport forming a
finite chain of `n` pages (each page's next pointer resolving to the
following page's URL, the last resolving to no match), the fetch stage
terminates with fuel `n`, returns exactly the `n` extracted data
elements in page order, and the transport log is exactly the `n` page
URLs in order — exactly `n` requests. -/
theorem execute_rest_pagination_chain (lib : Lib) (q : Query) (uv dv hv pv dp : PyVal)
    (np : String) (ch : List (PyVal × PyVal × PyVal)) (fuel : Nat)
    (hq : q.http_parameters = some (mkHttpDict (.str ("GET")) uv dv hv pv dp (.str np)))
    (hnp : np ≠ "")
    (hch : PageChain lib q hv dv pv uv ch)
    (hfuel : ch.length ≤ fuel) :
    q.execute_rest lib fuel =
      some (Except.ok (.list (ch.map (fun x => x.2.2))), ch.map (fun x => x.1)) := by
  have htr : pyTruthy (.str np) = true := by simp [pyTruthy, hnp]
  unfold Query.execute_rest
  rw [response_next_config_mk q _ _ _ _ _ _ _ hq]
  show (if pyTruthy (.str np) then
      match q.request_url with
      | Except.error e => some (Except.error e, [])
      | Except.ok u => Query.rest_loop lib q fuel u [] []
    else
      match q.request_url with
      | Except.error e => some (Except.error e, [])
      | Except.ok u => some (q.make_request lib u)) = _
  rw [if_pos htr, request_url_mk q _ _ _ _ _ _ _ hq]
  show Query.rest_loop lib q fuel uv [] [] = _
  rw [rest_loop_chain lib q uv dv hv pv dp (.str np) hq ch uv hch fuel [] [] hfuel]
  simp

/-- Pages for the pagination witness. -/
def w4Page1 : PyVal := .dict [("next", .str ("u2")), ("v", .int 1)]

def w4Page2 : PyVal := .dict [("v", .int 2)]

/-- A mocked two-page transport: `u1` answers a page pointing at `u2`,
whose page has no next pointer; the `n` JSONPath extracts the `next`
field. -/
def w4Lib : Lib :=
  ⟨fun _ => Except.error (.valueError ("JSONDecodeError") ("x")),
   fun pv => match pv with
     | .str s =>
       if s == "n" then
         Except.ok (fun p => match p with
           | .dict (("next", v) :: _) => Except.ok [v]
           | _ => Except.ok [])
       else Except.error (.valueError ("JsonPathParserError") ("x"))
     | _ => Except.error (.other ("TypeError") ("x")),
   fun _ u _ _ _ => match u with
     | .str s =>
       if s == "u1" then Except.ok ⟨200, "OK", Except.ok w4Page1⟩
       else Except.ok ⟨200, "OK", Except.ok w4Page2⟩
     | _ => Except.error (.other ("ConnectionError") ("x"))⟩

/-- A paginated query against `w4Lib` (no data path, next path `n`). -/
def w4Q : Query :=
  ⟨some (mkHttpDict (.str ("GET")) (.str ("u1")) (.dict []) (.dict []) (.dict [])
    PyVal.none (.str ("n"))), some "", some "", some [], true⟩

/-- Witness for C4 on a concrete two-page chain. -/
theorem execute_rest_pagination_chain_witness :
    Query.execute_rest w4Lib w4Q 2 =
      some (Except.ok (.list [w4Page1, w4Page2]), [.str ("u1"), .str ("u2")]) :=
  execute_rest_pagination_chain w4Lib w4Q (.str ("u1")) (.dict []) (.dict []) (.dict [])
    PyVal.none ("n")
    [(.str ("u1"), w4Page1, w4Page1), (.str ("u2"), w4Page2, w4Page2)] 2 rfl
    (by decide)
    (PageChain.cons (.str ("u1")) w4Page1 w4Page1 (.str ("u2"))
      [(.str ("u2"), w4Page2, w4Page2)] rfl rfl rfl rfl
      (PageChain.last (.str ("u2")) w4Page2 w4Page2 rfl rfl rfl rfl))
    (by decide)

/-- C10: a single iteration of the pagination loop on a truthy cursor,
with a configured `response.data` path, contributes exactly one element
to the accumulator — the first `data_path` match on that page, or `None`
when it matches nothing — records exactly one transport call, and moves
the cursor to the first `next_path` match (`None` when there is none);
no page is skipped and later matches are discarded. -/
theorem rest_loop_page_contribution (lib : Lib) (q : Query) (uv dv hv pv : PyVal)
    (dpath npath : String) (u page : PyVal) (ms ms₂ : List PyVal)
    (df nf : PyVal → Except PyExc (List PyVal)) (fuel : Nat) (acc log : List PyVal)
    (hq : q.http_parameters =
      some (mkHttpDict (.str ("GET")) uv dv hv pv (.str dpath) (.str npath)))
    (hu : pyTruthy u = true)
    (ht : lib.transport HttpMethod.get u hv dv pv = Except.ok ⟨200, "OK", Except.ok page⟩)
    (hdf : lib.jsonpath_parse (.str dpath) = Except.ok df)
    (hms : df page = Except.ok ms)
    (hnf : lib.jsonpath_parse (.str npath) = Except.ok nf)
    (hms₂ : nf page = Except.ok ms₂) :
    Query.rest_loop lib q (fuel + 1) u acc log =
      Query.rest_loop lib q fuel (ms₂.headD PyVal.none) (acc ++ [ms.headD PyVal.none])
        (log ++ [u]) := by
  rw [rest_loop_step lib q fuel u acc log hu]
  simp only
    [make_request_ok lib q uv dv hv pv (.str dpath) (.str npath) u page 200 "OK" hq ht
      (by decide),
    get_response_json_data_first_match lib q (.str ("GET")) uv dv hv pv (.str npath)
      page dpath df ms hq hdf hms,
    get_response_json_next_page_first_match lib q (.str ("GET")) uv dv hv pv (.str dpath)
      page npath nf ms₂ hq hnf hms₂]

/-- The page for the C10 witness: the `d` path extracts `5`, the `n`
path extracts `u2`. -/
def w10Page : PyVal := .dict [("item", .int 5), ("next", .str ("u2"))]

/-- Library oracle for the C10 witness. -/
def w10Lib : Lib :=
  ⟨fun _ => Except.error (.valueError ("JSONDecodeError") ("x")),
   fun pv => match pv with
     | .str s =>
       if s == "d" then Except.ok (fun _ => Except.ok [.int 5])
       else if s == "n" then Except.ok (fun _ => Except.ok [.str ("u2")])
       else Except.error (.valueError ("JsonPathParserError") ("x"))
     | _ => Except.error (.other ("TypeError") ("x")),
   fun _ _ _ _ _ => Except.ok ⟨200, "OK", Except.ok w10Page⟩⟩

/-- A paginated query with both `data` and `next` paths configured. -/
def w10Q : Query :=
  ⟨some (mkHttpDict (.str ("GET")) (.str ("u1")) (.dict []) (.dict []) (.dict [])
    (.str ("d")) (.str ("n"))), some "", some "", some [], true⟩

/-- Witness for C10 on a concrete page. -/
theorem rest_loop_page_contribution_witness :
    Query.rest_loop w10Lib w10Q 1 (.str ("u1")) [] [] =
      Query.rest_loop w10Lib w10Q 0 (.str ("u2")) [.int 5] [.str ("u1")] :=
  rest_loop_page_contribution w10Lib w10Q (.str ("u1")) (.dict []) (.dict []) (.dict [])
    ("d") ("n") (.str ("u1")) w10Page [.int 5] [.str ("u2")]
    (fun _ => Except.ok [.int 5]) (fun _ => Except.ok [.str ("u2")]) 0 [] []
    rfl rfl rfl rfl rfl rfl rfl

/-- The single-page branch of `_execute_rest`: with `response.next`
unconfigured, the fetch stage is exactly one `_make_request` on
`request.url` — whatever `response.data` is configured to. -/
theorem execute_rest_single_page (lib : Lib) (q : Query) (m uv dv hv pv dp : PyVal)
    (fuel : Nat)
    (hq : q.http_parameters = some (mkHttpDict m uv dv hv pv dp PyVal.none)) :
    q.execute_rest lib fuel = some (q.make_request lib uv) := by
  unfold Query.execute_rest
  rw [response_next_config_mk q _ _ _ _ _ _ _ hq]
  show (match q.request_url with
    | Except.error e => some (Except.error e, [])
    | Except.ok u => some (q.make_request lib u)) = _
  rw [request_url_mk q _ _ _ _ _ _ _ hq]

/-- C5 (amended): with no `response.next` configured, the fetch stage
issues exactly one request and returns the whole response document;
the configured `response.data` path (`dp` is arbitrary here) is not
applied in this branch. -/
theorem execute_rest_single_page_whole_document (lib : Lib) (q : Query)
    (uv dv hv pv dp doc : PyVal) (fuel : Nat) (s : Int) (r : String)
    (hq : q.http_parameters = some (mkHttpDict (.str ("GET")) uv dv hv pv dp PyVal.none))
    (hs : ¬(400 ≤ s ∧ s < 600))
    (ht : lib.transport HttpMethod.get uv hv dv pv = Except.ok ⟨s, r, Except.ok doc⟩) :
    q.execute_rest lib fuel = some (Except.ok doc, [uv]) := by
  rw [execute_rest_single_page lib q (.str ("GET")) uv dv hv pv dp fuel hq,
    make_request_ok lib q uv dv hv pv dp PyVal.none uv doc s r hq ht hs]

/-- Library oracle for the C5 counterexample: the transport answers with
the document `{"x": 5}` and the JSONPath `x` extracts `5` from it. -/
def c5Lib : Lib :=
  ⟨fun _ => Except.error (.valueError ("JSONDecodeError") ("x")),
   fun pv => match pv with
     | .str s =>
       if s == "x" then
         Except.ok (fun p => match p with
           | .dict (("x", v) :: _) => Except.ok [v]
           | _ => Except.ok [])
       else Except.error (.valueError ("JsonPathParserError") ("x"))
     | _ => Except.error (.other ("TypeError") ("x")),
   fun _ _ _ _ _ => Except.ok ⟨200, "OK", Except.ok (.dict [("x", .int 5)])⟩⟩

/-- A single-page query with `response.data` configured as `x`. -/
def c5Q : Query :=
  ⟨some (mkHttpDict (.str ("GET")) (.str ("u")) (.dict []) (.dict []) (.dict [])
    (.str ("x")) PyVal.none), some "", some "", some [], true⟩

/-- C5 counterexample: with `response.data = "x"` configured and no
`next`, the fetch stage issues one request but returns the whole
document `{"x": 5}`, not the data-path extraction (which yields `5` on
that document, a different value) — the claim's "applies
response.data_path extraction" fails on the non-paginated path. -/
theorem execute_rest_single_page_counterexample :
    Query.execute_rest c5Lib c5Q 1 =
      some (Except.ok (.dict [("x", .int 5)]), [.str ("u")]) ∧
    Query.get_response_json_data c5Lib c5Q (.dict [("x", .int 5)]) = Except.ok (.int 5) ∧
    PyVal.dict [("x", .int 5)] ≠ PyVal.int 5 :=
  ⟨rfl, rfl, fun h => PyVal.noConfusion h⟩

/-- Witness for the amended C5 on the same concrete query. -/
theorem execute_rest_single_page_whole_document_witness :
    Query.execute_rest c5Lib c5Q 1 =
      some (Except.ok (.dict [("x", .int 5)]), [.str ("u")]) :=
  execute_rest_single_page_whole_document c5Lib c5Q (.str ("u")) (.dict []) (.dict [])
    (.dict []) (.str ("x")) (.dict [("x", .int 5)]) 1 200 ("OK") rfl (by decide) rfl

/-- Library oracle whose transport always answers 200 with the JSON
array `[1]`, for the C6 evaluation. -/
def c6Lib : Lib :=
  ⟨fun _ => Except.error (.valueError ("JSONDecodeError") ("x")),
   fun _ => Except.error (.valueError ("JsonPathParserError") ("x")),
   fun _ _ _ _ _ => Except.ok ⟨200, "OK", Except.ok (.list [.int 1])⟩⟩

/-- A query aggregating with `STDEV` over the whole response. -/
def c6Q : Query :=
  ⟨some (mkHttpDict (.str ("GET")) (.str ("u")) (.dict []) (.dict []) (.dict [])
    PyVal.none PyVal.none), some "", some "STDEV", some [], true⟩

/-- C6, evaluated at the failing input: `STDEV` over the single-element
sequence `[1]` makes `statistics.stdev` raise `StatisticsError`, which is
not a `QueryError`, so `execute()` returns the generic `UNKNOWN_ERROR`
(-999) row — not the `AGGREGATION_ARITHMETIC_ERROR` (-123) class, whose
constant the source defines but never raises. -/
theorem stdev_singleton_unknown_error_eval :
    Query.execute c6Lib c6Q 1 ("a") ("b") =
      some (failure_row UNKNOWN_ERROR
        ("StatisticsError: stdev requires at least two data points") ("a") ("b"),
        [.str ("u")]) ∧
    UNKNOWN_ERROR ≠ AGGREGATION_ARITHMETIC_ERROR :=
  ⟨rfl, by decide⟩

/-- Library oracle whose transport answers 200 with the JSON array
`["z"]`, for the C7 counterexample. -/
def c7Lib : Lib :=
  ⟨fun _ => Except.error (.valueError ("JSONDecodeError") ("x")),
   fun _ => Except.error (.valueError ("JsonPathParserError") ("x")),
   fun _ _ _ _ _ => Except.ok ⟨200, "OK", Except.ok (.list [.str ("z")])⟩⟩

/-- A query aggregating with `SUM` over the whole response. -/
def c7Q : Query :=
  ⟨some (mkHttpDict (.str ("GET")) (.str ("u")) (.dict []) (.dict []) (.dict [])
    PyVal.none PyVal.none), some "", some "SUM", some [], true⟩

/-- C7 counterexample: `SUM` over `["z"]` hits `Decimal("z")`, which
raises `decimal.InvalidOperation` — not a `QueryError` — so `execute()`
returns the `UNKNOWN_ERROR` (-999) row, not the claimed
`AGGREGATION_WRONG_DATATYPE` (-122) class. -/
theorem sum_non_coercible_counterexample :
    Query.execute c7Lib c7Q 1 ("a") ("b") =
      some (failure_row UNKNOWN_ERROR
        ("InvalidOperation: [<class \x27decimal.ConversionSyntax\x27>]") ("a") ("b"),
        [.str ("u")]) ∧
    UNKNOWN_ERROR ≠ AGGREGATION_WRONG_DATATYPE :=
  ⟨rfl, by decide⟩

/-- C7 (amended): for every numeric aggregation operator applied to a
sequence with a non-coercible element (the elementwise `Decimal`
coercion fails with a non-`QueryError` exception), `execute()` yields
the `UNKNOWN_ERROR` failure row carrying the originating exception's
name and message — not the `AGGREGATION_WRONG_DATATYPE` class, which
the source reserves for non-sequence aggregation targets. -/
theorem execute_non_coercible_unknown_error (lib : Lib) (q : Query) (fuel : Nat)
    (t1 t2 : String) (v : PyVal) (log xs : List PyVal) (a nm msg : String)
    (hrest : q.execute_rest lib fuel = some (Except.ok v, log))
    (hjson : q.execute_jsonpath lib v = Except.ok (.list xs))
    (hagg : q.aggregation = some a)
    (ha : a ∈ (["AVG", "MAX", "MED", "MIN", "STDEV", "SUM", "VAR"] : List String))
    (hdec : map_decimal xs = Except.error (PyExc.other nm msg)) :
    Query.execute lib q fuel t1 t2 =
      some (failure_row UNKNOWN_ERROR (nm ++ ": " ++ msg) t1 t2, log) := by
  have hagg2 : q.execute_aggregation (.list xs) = Except.error (PyExc.other nm msg) := by
    unfold Query.execute_aggregation Query.attr_aggregation
    rw [hagg]
    fin_cases ha <;>
      · show (do
            let qs ← map_decimal xs
            apply_aggregation_function _ qs : Except PyExc PyVal) =
          Except.error (PyExc.other nm msg)
        rw [hdec]
        rfl
  have hpipe : (do
      let s1 ← (Except.ok v : Except PyExc PyVal)
      let s2 ← q.execute_jsonpath lib s1
      q.execute_aggregation s2) = Except.error (PyExc.other nm msg) := by
    show (do
      let s2 ← q.execute_jsonpath lib v
      q.execute_aggregation s2 : Except PyExc PyVal) = Except.error (PyExc.other nm msg)
    rw [hjson]
    show q.execute_aggregation (.list xs) = Except.error (PyExc.other nm msg)
    exact hagg2
  unfold Query.execute
  rw [hrest]
  show (match (do
      let s1 ← (Except.ok v : Except PyExc PyVal)
      let s2 ← q.execute_jsonpath lib s1
      q.execute_aggregation s2 : Except PyExc PyVal) with
    | Except.ok stage3 => some (success_row stage3 t1 t2, log)
    | Except.error (PyExc.queryError c m) => some (failure_row c m t1 t2, log)
    | Except.error e =>
      some (failure_row UNKNOWN_ERROR (pyExcName e ++ ": " ++ pyExcMsg e) t1 t2, log)) =
    some (failure_row UNKNOWN_ERROR (nm ++ ": " ++ msg) t1 t2, log)
  rw [hpipe]
  rfl

/-- Witness for the amended C7 on the concrete `SUM` over `["z"]`. -/
theorem execute_non_coercible_unknown_error_witness :
    Query.execute c7Lib c7Q 1 ("a") ("b") =
      some (failure_row UNKNOWN_ERROR
        ("InvalidOperation: [<class \x27decimal.ConversionSyntax\x27>]") ("a") ("b"),
        [.str ("u")]) :=
  execute_non_coercible_unknown_error c7Lib c7Q 1 ("a") ("b") (.list [.str ("z")])
    [.str ("u")] [.str ("z")] ("SUM") ("InvalidOperation")
    ("[<class \x27decimal.ConversionSyntax\x27>]") rfl rfl rfl (by decide) rfl

/-- A `GET` request whose transport answers a status in `[400, 600)`
raises (via `raise_for_status` and the `HTTPError` handler) the
classified `QueryError` carrying the integer status code and the reason
phrase, after exactly one transport call. -/
theorem make_request_http_error (lib : Lib) (q : Query) (uv dv hv pv dp np u : PyVal)
    (s : Int) (r : String) (b : Except PyExc PyVal)
    (hq : q.http_parameters = some (mkHttpDict (.str ("GET")) uv dv hv pv dp np))
    (hs : 400 ≤ s) (hs₂ : s < 600)
    (ht : lib.transport HttpMethod.get u hv dv pv = Except.ok ⟨s, r, b⟩) :
    q.make_request lib u = (Except.error (.queryError s r), [u]) := by
  unfold Query.make_request
  rw [request_method_mk q _ _ _ _ _ _ _ hq, request_args_mk q _ _ _ _ _ _ _ hq]
  show (match lib.transport HttpMethod.get u hv dv pv with
    | Except.error e => (request_try_handler e Option.none, [u])
    | Except.ok resp =>
      if 400 ≤ resp.status_code ∧ resp.status_code < 600 then
        (request_try_handler (.httpError (resp.reason)) (some resp), [u])
      else
        match resp.body with
        | Except.ok v => (Except.ok v, [u])
        | Except.error e => (request_try_handler e (some resp), [u])) =
    (Except.error (.queryError s r), [u])
  rw [ht]
  clear ht
  show (if 400 ≤ s ∧ s < 600 then
      (request_try_handler (.httpError r) (some ⟨s, r, b⟩), [u])
    else
      match b with
      | Except.ok v => (Except.ok v, [u])
      | Except.error e => (request_try_handler e (some ⟨s, r, b⟩), [u])) =
    (Except.error (.queryError s r), [u])
  rw [if_pos ⟨hs, hs₂⟩]
  rfl

/-- C8 (amended): for every transport status in `[400, 600)` — the exact
range `raise_for_status` rejects — `execute()` yields the failure row
`['', '0', '-1', status, reason, t1, t2]` after exactly one request; the
error code field is the integer status, not its string form. -/
theorem execute_http_failure_row (lib : Lib) (q : Query) (uv dv hv pv dp : PyVal)
    (s : Int) (r : String) (b : Except PyExc PyVal) (fuel : Nat) (t1 t2 : String)
    (hq : q.http_parameters = some (mkHttpDict (.str ("GET")) uv dv hv pv dp PyVal.none))
    (hs : 400 ≤ s) (hs₂ : s < 600)
    (ht : lib.transport HttpMethod.get uv hv dv pv = Except.ok ⟨s, r, b⟩) :
    Query.execute lib q fuel t1 t2 = some (failure_row s r t1 t2, [uv]) := by
  unfold Query.execute
  rw [execute_rest_single_page lib q (.str ("GET")) uv dv hv pv dp fuel hq,
    make_request_http_error lib q uv dv hv pv dp PyVal.none uv s r b hq hs hs₂ ht]
  rfl

/-- Library oracle answering every request with `404 Not Found`. -/
def c8Lib : Lib :=
  ⟨fun _ => Except.error (.valueError ("JSONDecodeError") ("x")),
   fun _ => Except.error (.valueError ("JsonPathParserError") ("x")),
   fun _ _ _ _ _ => Except.ok ⟨404, "Not Found", Except.ok (.dict [])⟩⟩

/-- Library oracle answering every request with `304 Not Modified` and
the body `7`. -/
def c8bLib : Lib :=
  ⟨fun _ => Except.error (.valueError ("JSONDecodeError") ("x")),
   fun _ => Except.error (.valueError ("JsonPathParserError") ("x")),
   fun _ _ _ _ _ => Except.ok ⟨304, "Not Modified", Except.ok (.int 7)⟩⟩

/-- A plain single-page `GET` query with identity extraction and no
aggregation. -/
def c8Q : Query :=
  ⟨some (mkHttpDict (.str ("GET")) (.str ("u")) (.dict []) (.dict []) (.dict [])
    PyVal.none PyVal.none), some "", some "", some [], true⟩

/-- C8 counterexample: at 404/`Not Found` the failure row carries the
integer `404` in the error-code field — not the string `"404"` the claim
states; and at the non-2xx status 304 no HTTP-error row is produced at
all (`raise_for_status` only rejects 4xx/5xx): the body is parsed and the
run succeeds with error code `'0'`. -/
theorem http_status_counterexample :
    Query.execute c8Lib c8Q 1 ("a") ("b") =
      some (failure_row 404 ("Not Found") ("a") ("b"), [.str ("u")]) ∧
    (failure_row 404 ("Not Found") ("a") ("b")).get? 3 = some (.int 404) ∧
    PyVal.int 404 ≠ PyVal.str ("404") ∧
    Query.execute c8bLib c8Q 1 ("a") ("b") =
      some (success_row (.int 7) ("a") ("b"), [.str ("u")]) :=
  ⟨rfl, rfl, fun h => PyVal.noConfusion h, rfl⟩

/-- Witness for the amended C8 at 404/`Not Found`. -/
theorem execute_http_failure_row_witness :
    Query.execute c8Lib c8Q 1 ("a") ("b") =
      some (failure_row 404 ("Not Found") ("a") ("b"), [.str ("u")]) :=
  execute_http_failure_row c8Lib c8Q (.str ("u")) (.dict []) (.dict []) (.dict [])
    PyVal.none 404 ("Not Found") (Except.ok (.dict [])) 1 ("a") ("b") rfl
    (by decide) (by decide) rfl

/-- The page every request of the cyclic transport returns; its `next`
pointer resolves to the already-seen URL `u`. -/
def loop_page : PyVal := .dict [("next", .str ("u"))]

/-- Library oracle realising a pagination cycle: every page's next
pointer is the same URL `u`. -/
def loop_lib : Lib :=
  ⟨fun _ => Except.error (.valueError ("JSONDecodeError") ("x")),
   fun _ => Except.ok (fun _ => Except.ok [.str ("u")]),
   fun _ _ _ _ _ => Except.ok ⟨200, "OK", Except.ok loop_page⟩⟩

/-- A paginated query starting at the cycling URL `u`. -/
def loop_q : Query :=
  ⟨some (mkHttpDict (.str ("GET")) (.str ("u")) (.dict []) (.dict []) (.dict [])
    PyVal.none (.str ("next"))), some "", some "", some [], true⟩

/-- For every fuel, the cyclic loop consumes it all without finishing. -/
theorem rest_loop_cycle (fuel : Nat) : ∀ acc log : List PyVal,
    Query.rest_loop loop_lib loop_q fuel (.str ("u")) acc log = Option.none := by
  induction fuel with
  | zero =>
    intro acc log
    rfl
  | succ n ih =>
    intro acc log
    have step : Query.rest_loop loop_lib loop_q (n + 1) (.str ("u")) acc log =
        Query.rest_loop loop_lib loop_q n (.str ("u")) (acc ++ [loop_page])
          (log ++ [.str ("u")]) := rfl
    rw [step]
    exact ih _ _

/-- C9: the pagination loop has no page bound and no cycle detection —
against the cyclic transport `loop_lib`, for every iteration bound
(fuel) the fetch stage has not finished. -/
theorem execute_rest_cyclic_next_nonterminating :
    ∀ fuel : Nat, Query.execute_rest loop_lib loop_q fuel = Option.none := by
  intro fuel
  have start : Query.execute_rest loop_lib loop_q fuel =
      Query.rest_loop loop_lib loop_q fuel (.str ("u")) [] [] := rfl
  rw [start]
  exact rest_loop_cycle fuel [] []

end SupremePancake
